import Mathlib

/-!
Shallow embedding of the health-calculator kernel in `src/app.py`.

Python floats are modelled as exact rationals (`ℚ`).  Python's built-in
`round(x, d)` rounds to `d` decimal places with ties going to the even
digit (banker's rounding); it is modelled by `roundTo` below.
`math.log10` is a transcendental library primitive: functions that call
it take an abstract `log10 : ℚ → Option ℚ` parameter, where `none`
models the `ValueError` raised on a non-positive argument; theorems
quantify over every such model.  Python's `try/except` is modelled by
the `Option` monad: any failing sub-step makes the whole call `none`.
-/

/-- Round a rational to the nearest integer, ties to even
(the rounding rule of Python's built-in `round`). -/
def roundHalfEven (x : ℚ) : ℤ :=
  if x - ⌊x⌋ < 1/2 then ⌊x⌋
  else if 1/2 < x - ⌊x⌋ then ⌊x⌋ + 1
  else if ⌊x⌋ % 2 = 0 then ⌊x⌋ else ⌊x⌋ + 1

/-- Python's `round(x, d)`: round to `d` decimal places, ties to even. -/
def roundTo (d : ℕ) (x : ℚ) : ℚ :=
  (roundHalfEven (x * 10 ^ d) : ℚ) / 10 ^ d

theorem roundHalfEven_le (x : ℚ) : roundHalfEven x ≤ ⌊x⌋ + 1 := by
  unfold roundHalfEven
  split_ifs <;> omega

theorem le_roundHalfEven (x : ℚ) : ⌊x⌋ ≤ roundHalfEven x := by
  unfold roundHalfEven
  split_ifs <;> omega

theorem roundHalfEven_mono {x y : ℚ} (hxy : x ≤ y) :
    roundHalfEven x ≤ roundHalfEven y := by
  have hf : ⌊x⌋ ≤ ⌊y⌋ := Int.floor_mono hxy
  rcases lt_or_eq_of_le hf with hlt | heq
  · calc roundHalfEven x ≤ ⌊x⌋ + 1 := roundHalfEven_le x
      _ ≤ ⌊y⌋ := by omega
      _ ≤ roundHalfEven y := le_roundHalfEven y
  · have heqQ : ((⌊x⌋ : ℤ) : ℚ) = ((⌊y⌋ : ℤ) : ℚ) := by exact_mod_cast heq
    have key : x - (⌊x⌋ : ℚ) ≤ y - (⌊y⌋ : ℚ) := by rw [heqQ]; linarith
    unfold roundHalfEven
    split_ifs <;> first | omega | linarith

theorem roundTo_mono (d : ℕ) {x y : ℚ} (hxy : x ≤ y) :
    roundTo d x ≤ roundTo d y := by
  unfold roundTo
  have hp : (0 : ℚ) < 10 ^ d := by positivity
  have hm : x * 10 ^ d ≤ y * 10 ^ d := mul_le_mul_of_nonneg_right hxy hp.le
  have hc : ((roundHalfEven (x * 10 ^ d) : ℤ) : ℚ) ≤
      ((roundHalfEven (y * 10 ^ d) : ℤ) : ℚ) := by
    exact_mod_cast roundHalfEven_mono hm
  gcongr

/-- `cm_to_feet_inches` from `src/app.py`: `inches = cm / 2.54`,
`feet = int(inches // 12)`, remainder in inches. -/
def cm_to_feet_inches (cm : ℚ) : ℤ × ℚ :=
  let inches := cm / 2.54
  let feet := ⌊inches / 12⌋
  (feet, inches - feet * 12)

/-- `feet_inches_to_cm` from `src/app.py`. -/
def feet_inches_to_cm (feet : ℤ) (inches : ℚ) : ℚ :=
  ((feet : ℚ) * 12 + inches) * 2.54

/-- Python's `str.lower()` on the character list (agrees with it on the
ASCII gender strings the app uses). -/
def str_lower (s : String) : String := ⟨s.data.map Char.toLower⟩

/-- The test `gender.lower() in ["male", "m"]` used throughout
`src/app.py`. -/
def isMaleGender (g : String) : Bool :=
  ["male", "m"].contains (str_lower g)

/-- `calculate_bmi` from `src/app.py`: `None` when `height_cm <= 0`,
else `round(weight / (height_m ** 2), 2)`. -/
def calculate_bmi (weight_kg height_cm : ℚ) : Option ℚ :=
  if height_cm ≤ 0 then none
  else
    let height_m := height_cm / 100
    some (roundTo 2 (weight_kg / height_m ^ 2))

/-- `bmi_category` from `src/app.py`. -/
def bmi_category (bmi : Option ℚ) : String :=
  match bmi with
  | none => "Invalid"
  | some b =>
    if b < 18.5 then "Underweight"
    else if 18.5 ≤ b ∧ b < 25 then "Normal"
    else if 25 ≤ b ∧ b < 30 then "Overweight"
    else "Obese"

/-- `calculate_bmr` from `src/app.py` (Mifflin-St Jeor), `round(bmr, 0)`. -/
def calculate_bmr (gender : String) (age weight_kg height_cm : ℚ) : ℚ :=
  let bmr :=
    if isMaleGender gender then
      10 * weight_kg + 6.25 * height_cm - 5 * age + 5
    else
      10 * weight_kg + 6.25 * height_cm - 5 * age - 161
  roundTo 0 bmr

/-- `body_fat_navy` from `src/app.py`.  `math.log10` is abstracted as the
parameter `log10`, with `none` standing for the `ValueError` it raises on
a non-positive argument; the surrounding `try/except` that turns any
raised error into `None` is the `Option` propagation (a missing `hip_cm`
in the female branch is the `TypeError` of `waist_cm + None`, and a zero
denominator in `495 / val` is the `ZeroDivisionError`). -/
def body_fat_navy (log10 : ℚ → Option ℚ) (gender : String)
    (waist_cm neck_cm height_cm : ℚ) (hip_cm : Option ℚ) : Option ℚ :=
  if isMaleGender gender then
    match log10 (waist_cm - neck_cm), log10 height_cm with
    | some l1, some l2 =>
      let val := 1.0324 - 0.19077 * l1 + 0.15456 * l2
      if val = 0 then none else some (roundTo 1 (495 / val - 450))
    | _, _ => none
  else
    match hip_cm with
    | none => none
    | some hip =>
      match log10 (waist_cm + hip - neck_cm), log10 height_cm with
      | some l1, some l2 =>
        let val := 1.29579 - 0.35004 * l1 + 0.22100 * l2
        if val = 0 then none else some (roundTo 1 (495 / val - 450))
      | _, _ => none

/-- A concrete model of `math.log10` satisfying the domain property
(used to instantiate witnesses). -/
def log10_model (x : ℚ) : Option ℚ :=
  if x ≤ 0 then none else some 0

/-- `bf_interpretation` from `src/app.py` (the unused `age` parameter is
kept to match the source signature). -/
def bf_interpretation (gender : String) (age : ℚ) (bf : Option ℚ) : String :=
  match bf with
  | none => "Invalid data for estimation"
  | some b =>
    if isMaleGender gender then
      if b < 6 then "Essential fat"
      else if 6 ≤ b ∧ b < 14 then "Athlete"
      else if 14 ≤ b ∧ b < 18 then "Fit"
      else if 18 ≤ b ∧ b < 25 then "Average"
      else "Obese"
    else
      if b < 14 then "Essential fat"
      else if 14 ≤ b ∧ b < 21 then "Athlete"
      else if 21 ≤ b ∧ b < 25 then "Fit"
      else if 25 ≤ b ∧ b < 32 then "Average"
      else "Obese"

/-- The Ideal Weight tab of `src/app.py`:
`lower = round(min(dev, ham) * 0.95, 1)`,
`upper = round(max(dev, ham) * 1.05, 1)`. -/
def ideal_weight_range (dev ham : ℚ) : ℚ × ℚ :=
  (roundTo 1 (min dev ham * 0.95), roundTo 1 (max dev ham * 1.05))

/-- The Next handler of the Health Tips tab of `src/app.py`:
`tip_idx + 1`. -/
def nextTip (i : ℤ) : ℤ := i + 1

/-- The Prev handler of the Health Tips tab of `src/app.py`:
`max(0, tip_idx - 1)`. -/
def prevTip (i : ℤ) : ℤ := max 0 (i - 1)

theorem cm_to_feet_inches_eq (cm : ℚ) :
    cm_to_feet_inches cm =
      (⌊cm / 2.54 / 12⌋, cm / 2.54 - (⌊cm / 2.54 / 12⌋ : ℚ) * 12) := rfl

theorem nextTip_iterate (i : ℤ) (N : ℕ) : nextTip^[N] i = i + N := by
  induction N with
  | zero => simp
  | succ n ih =>
    rw [Function.iterate_succ_apply', ih, nextTip]
    push_cast
    ring

theorem prevTip_iterate (j : ℤ) (N : ℕ)
    (h : ∀ k : ℕ, k < N → 1 ≤ prevTip^[k] j) : prevTip^[N] j = j - N := by
  induction N with
  | zero => simp
  | succ n ih =>
    have hn : prevTip^[n] j = j - n := ih fun k hk => h k (by omega)
    have h1 : (1 : ℤ) ≤ j - n := hn ▸ h n (by omega)
    rw [Function.iterate_succ_apply', hn, prevTip,
      max_eq_right (by omega : (0 : ℤ) ≤ j - n - 1)]
    push_cast
    ring

/-- C2: `calculate_bmi` returns the invalid sentinel iff `height_cm ≤ 0`;
for positive height it returns the weight divided by the squared height in
metres, rounded to 2 decimals; in particular `calculate_bmi 70 0` is
invalid. -/
theorem bmi_invalid_iff_nonpos_height :
    (∀ w h : ℚ, calculate_bmi w h = none ↔ h ≤ 0) ∧
    (∀ w h : ℚ, 0 < h →
      calculate_bmi w h = some (roundTo 2 (w / (h / 100) ^ 2))) ∧
    calculate_bmi 70 0 = none := by
  refine ⟨fun w h => ?_, fun w h hh => ?_, by simp [calculate_bmi]⟩
  · unfold calculate_bmi
    split_ifs with h1 <;> simp [h1]
  · unfold calculate_bmi
    rw [if_neg (not_le.mpr hh)]

/-- C2 witness: at weight 70 and height 170 the BMI is defined
and equals 24.22. -/
theorem bmi_invalid_iff_nonpos_height_witness :
    calculate_bmi 70 170 = some 24.22 := by
  rw [bmi_invalid_iff_nonpos_height.2.1 70 170 (by norm_num)]
  norm_num [roundTo, roundHalfEven]

/-- C3: `bmi_category` sends the invalid sentinel to "Invalid" and
buckets numeric BMI by half-open intervals inclusive on the lower edge,
with the five boundary examples of the spec. -/
theorem bmi_category_buckets :
    bmi_category none = "Invalid" ∧
    (∀ b : ℚ, b < 18.5 → bmi_category (some b) = "Underweight") ∧
    (∀ b : ℚ, 18.5 ≤ b → b < 25 → bmi_category (some b) = "Normal") ∧
    (∀ b : ℚ, 25 ≤ b → b < 30 → bmi_category (some b) = "Overweight") ∧
    (∀ b : ℚ, 30 ≤ b → bmi_category (some b) = "Obese") ∧
    bmi_category (some 18.5) = "Normal" ∧
    bmi_category (some 18.49) = "Underweight" ∧
    bmi_category (some 25) = "Overweight" ∧
    bmi_category (some 29.99) = "Overweight" ∧
    bmi_category (some 30) = "Obese" := by
  have hu : ∀ b : ℚ, b < 18.5 → bmi_category (some b) = "Underweight" := by
    intro b hb
    simp only [bmi_category]
    rw [if_pos hb]
  have hn : ∀ b : ℚ, 18.5 ≤ b → b < 25 → bmi_category (some b) = "Normal" := by
    intro b hb1 hb2
    simp only [bmi_category]
    rw [if_neg (not_lt.mpr hb1), if_pos ⟨hb1, hb2⟩]
  have ho : ∀ b : ℚ, 25 ≤ b → b < 30 →
      bmi_category (some b) = "Overweight" := by
    intro b hb1 hb2
    simp only [bmi_category]
    rw [if_neg (not_lt.mpr (by linarith)),
      if_neg (by push_neg; intro _; linarith), if_pos ⟨hb1, hb2⟩]
  have hob : ∀ b : ℚ, 30 ≤ b → bmi_category (some b) = "Obese" := by
    intro b hb
    simp only [bmi_category]
    rw [if_neg (not_lt.mpr (by linarith)),
      if_neg (by push_neg; intro _; linarith),
      if_neg (by push_neg; intro _; linarith)]
  exact ⟨rfl, hu, hn, ho, hob,
    hn 18.5 (by norm_num) (by norm_num), hu 18.49 (by norm_num),
    ho 25 (by norm_num) (by norm_num), ho 29.99 (by norm_num) (by norm_num),
    hob 30 (by norm_num)⟩

/-- C3 witness: a BMI of 20 is classified "Normal". -/
theorem bmi_category_buckets_witness : bmi_category (some 20) = "Normal" :=
  bmi_category_buckets.2.2.1 20 (by norm_num) (by norm_num)

/-- C7: converting a height in cm to (feet, inches) and back is the
identity (so in particular within 0.01) for every cm in [50, 300]. -/
theorem height_roundtrip (cm : ℚ) (h1 : 50 ≤ cm) (h2 : cm ≤ 300) :
    |feet_inches_to_cm (cm_to_feet_inches cm).1 (cm_to_feet_inches cm).2
      - cm| ≤ 1/100 := by
  rw [cm_to_feet_inches_eq]
  unfold feet_inches_to_cm
  have key : (((⌊cm / 2.54 / 12⌋ : ℚ)) * 12 +
      (cm / 2.54 - (⌊cm / 2.54 / 12⌋ : ℚ) * 12)) * 2.54 = cm := by
    ring
  rw [key]
  simp

/-- C7 witness: the round trip at 170 cm. -/
theorem height_roundtrip_witness :
    |feet_inches_to_cm (cm_to_feet_inches 170).1 (cm_to_feet_inches 170).2
      - 170| ≤ 1/100 :=
  height_roundtrip 170 (by norm_num) (by norm_num)

/-- C8 counterexample: on an absent body-fat value the code's label is
"Invalid data for estimation", not the claimed "Invalid". -/
theorem bf_interpretation_absent_ne_invalid :
    bf_interpretation "male" 0 none ≠ "Invalid" := by decide

/-- C8 amended: `bf_interpretation` returns the label
"Invalid data for estimation" whenever the body-fat value is absent. -/
theorem bf_interpretation_absent_label :
    ∀ (g : String) (a : ℚ),
      bf_interpretation g a none = "Invalid data for estimation" :=
  fun _ _ => rfl

/-- C9: the Prev handler computes `max 0 (i - 1)`, so `prevTip 0 = 0`;
and N Next steps followed by N Prev steps return to the start whenever no
intermediate Prev application hits the zero clamp (every value fed to
`prevTip` is at least 1). -/
theorem tip_carousel_claim :
    (∀ i : ℤ, prevTip i = max 0 (i - 1)) ∧ prevTip 0 = 0 ∧
    (∀ (i : ℤ) (N : ℕ),
      (∀ k : ℕ, k < N → 1 ≤ prevTip^[k] (nextTip^[N] i)) →
      prevTip^[N] (nextTip^[N] i) = i) := by
  refine ⟨fun i => rfl, rfl, fun i N h => ?_⟩
  rw [prevTip_iterate _ N h, nextTip_iterate]
  ring

/-- C9 witness: three Next steps then three Prev steps from index 2. -/
theorem tip_carousel_claim_witness : prevTip^[3] (nextTip^[3] 2) = 2 :=
  tip_carousel_claim.2.2 2 3 (by decide)

/-- C4: for every model of `math.log10` that fails on non-positive
arguments, `body_fat_navy` returns the invalid sentinel (instead of
raising) whenever a logarithm argument is non-positive: for a male
gender whenever `waist ≤ neck`, for every gender whenever `height ≤ 0`,
and for a female gender whenever `waist + hip ≤ neck`. -/
theorem body_fat_navy_invalid_guards (L : ℚ → Option ℚ)
    (hL : ∀ x : ℚ, x ≤ 0 → L x = none) :
    (∀ (g : String) (w n h : ℚ) (hip : Option ℚ),
      isMaleGender g = true → w ≤ n → body_fat_navy L g w n h hip = none) ∧
    (∀ (g : String) (w n h : ℚ) (hip : Option ℚ),
      h ≤ 0 → body_fat_navy L g w n h hip = none) ∧
    (∀ (g : String) (w n h hp : ℚ), isMaleGender g = false →
      w + hp ≤ n → body_fat_navy L g w n h (some hp) = none) := by
  refine ⟨fun g w n h hip hg hwn => ?_, fun g w n h hip hh => ?_,
    fun g w n h hp hg hwn => ?_⟩
  · have hz : L (w - n) = none := hL _ (by linarith)
    cases hy : L h <;> simp [body_fat_navy, hg, hz, hy]
  · have hz : L h = none := hL _ hh
    by_cases hg : isMaleGender g = true
    · cases hx : L (w - n) <;> simp [body_fat_navy, hg, hz, hx]
    · cases hip with
      | none => simp [body_fat_navy, hg]
      | some hp =>
        cases hx : L (w + hp - n) <;> simp [body_fat_navy, hg, hz, hx]
  · have hz : L (w + hp - n) = none := hL _ (by linarith)
    cases hy : L h <;> simp [body_fat_navy, hg, hz, hy]

/-- C4 witness: with a concrete log10 model, a male call with
waist 30 ≤ neck 37 at height 170 is invalid. -/
theorem body_fat_navy_invalid_guards_witness :
    body_fat_navy log10_model "male" 30 37 170 none = none :=
  (body_fat_navy_invalid_guards log10_model
    fun x hx => by simp [log10_model, hx]).1 "male" 30 37 170 none
    (by decide) (by norm_num)

/-- C10: for every gender string whose lowercase form is "male" or "m"
(and every log10 model), the result of `body_fat_navy` does not depend
on the hip argument. -/
theorem body_fat_navy_male_hip_independent (L : ℚ → Option ℚ)
    (g : String) (w n h : ℚ) (hip1 hip2 : Option ℚ)
    (hg : isMaleGender g = true) :
    body_fat_navy L g w n h hip1 = body_fat_navy L g w n h hip2 := by
  simp [body_fat_navy, hg]

/-- C10 witness: a male call with hip 95 equals the same call with hip
absent. -/
theorem body_fat_navy_male_hip_independent_witness :
    body_fat_navy log10_model "m" 80 37 170 (some 95) =
      body_fat_navy log10_model "m" 80 37 170 none :=
  body_fat_navy_male_hip_independent log10_model "m" 80 37 170
    (some 95) none (by decide)

/-- C1 counterexample: the male Mifflin-St Jeor formula at
(age 30, weight 70, height 170) gives 1617.5, so `calculate_bmr`
returns neither 1643 nor 1642 as the claim allows. -/
theorem bmr_male_example_ne_spec :
    calculate_bmr "male" 30 70 170 ≠ 1643 ∧
    calculate_bmr "male" 30 70 170 ≠ 1642 := by
  have hg : isMaleGender "male" = true := by decide
  constructor <;>
    (simp only [calculate_bmr, hg, if_true]
     norm_num [roundTo, roundHalfEven])

/-- C1 amended: the male formula at (30, 70, 170) evaluates to 1617.5
(not the 1642.5 stated in the spec), and `calculate_bmr` returns its
whole-kcal rounding 1618 (round half to even). -/
theorem bmr_male_example_value :
    calculate_bmr "male" 30 70 170 = 1618 ∧
    10 * (70 : ℚ) + 6.25 * 170 - 5 * 30 + 5 = 1617.5 ∧
    roundTo 0 (1617.5 : ℚ) = 1618 := by
  have hg : isMaleGender "male" = true := by decide
  refine ⟨?_, by norm_num, by norm_num [roundTo, roundHalfEven]⟩
  simp only [calculate_bmr, hg, if_true]
  norm_num [roundTo, roundHalfEven]

/-- C5 counterexample: the Ideal Weight tab rounds each bound to one
decimal, so at (devine 65, hamwi 63) it cannot return the claimed
two-decimal pair (59.85, 68.25). -/
theorem ideal_weight_range_ne_spec :
    ideal_weight_range 65 63 ≠ (59.85, 68.25) := by
  intro heq
  have h1 := congrArg Prod.fst heq
  simp only [ideal_weight_range] at h1
  rw [show min (65 : ℚ) 63 = 63 by norm_num [min_def]] at h1
  norm_num [roundTo, roundHalfEven] at h1

/-- C5 amended: the range is (round₁(0.95·min), round₁(1.05·max)), and
at (devine 65, hamwi 63) it equals (59.8, 68.2): the exact bounds 59.85
and 68.25 are rounded to one decimal (ties to even). -/
theorem ideal_weight_range_example_value :
    ideal_weight_range 65 63 = (59.8, 68.2) ∧
    (∀ d h : ℚ, ideal_weight_range d h =
      (roundTo 1 (min d h * 0.95), roundTo 1 (max d h * 1.05))) := by
  refine ⟨?_, fun d h => rfl⟩
  simp only [ideal_weight_range]
  rw [show min (65 : ℚ) 63 = 63 by norm_num [min_def],
    show max (65 : ℚ) 63 = 65 by norm_num [max_def]]
  rw [Prod.ext_iff]
  constructor <;> norm_num [roundTo, roundHalfEven]

/-- C6 counterexample: because `calculate_bmi` rounds to two decimals,
a strictly larger height (or weight) can leave the result unchanged:
at weight 70 the heights 170 and 170.001 give the same BMI, and at
height 170 the weights 70 and 70.001 give the same BMI. -/
theorem bmi_not_strictly_monotone :
    (170 : ℚ) < 170.001 ∧
    calculate_bmi 70 170.001 = calculate_bmi 70 170 ∧
    (70 : ℚ) < 70.001 ∧
    calculate_bmi 70.001 170 = calculate_bmi 70 170 := by
  refine ⟨by norm_num, ?_, by norm_num, ?_⟩ <;>
    norm_num [calculate_bmi, roundTo, roundHalfEven]

/-- C6 amended: for positive weight and height, `calculate_bmi` is
weakly antitone in height and weakly monotone in weight (strictness is
lost to the two-decimal rounding). -/
theorem bmi_weakly_monotone (w w2 h h2 : ℚ) (hw : 0 < w) (hww : w ≤ w2)
    (hh : 0 < h) (hhh : h ≤ h2) :
    (calculate_bmi w h2).getD 0 ≤ (calculate_bmi w h).getD 0 ∧
    (calculate_bmi w h).getD 0 ≤ (calculate_bmi w2 h).getD 0 := by
  have hh2 : 0 < h2 := lt_of_lt_of_le hh hhh
  have e1 : calculate_bmi w h = some (roundTo 2 (w / (h / 100) ^ 2)) := by
    unfold calculate_bmi
    rw [if_neg (not_le.mpr hh)]
  have e2 : calculate_bmi w h2 = some (roundTo 2 (w / (h2 / 100) ^ 2)) := by
    unfold calculate_bmi
    rw [if_neg (not_le.mpr hh2)]
  have e3 : calculate_bmi w2 h = some (roundTo 2 (w2 / (h / 100) ^ 2)) := by
    unfold calculate_bmi
    rw [if_neg (not_le.mpr hh)]
  rw [e1, e2, e3]
  simp only [Option.getD_some]
  constructor
  · apply roundTo_mono
    gcongr
  · apply roundTo_mono
    gcongr

/-- C6 witness: at weight 70 a taller 180 cm gives BMI at most that of
170 cm, and at 170 cm a heavier 71 kg gives BMI at least that of 70 kg. -/
theorem bmi_weakly_monotone_witness :
    (calculate_bmi 70 180).getD 0 ≤ (calculate_bmi 70 170).getD 0 ∧
    (calculate_bmi 70 170).getD 0 ≤ (calculate_bmi 71 170).getD 0 :=
  bmi_weakly_monotone 70 71 170 180 (by norm_num) (by norm_num)
    (by norm_num) (by norm_num)
